import Mathlib

/-!
Shallow embedding of the gRPC translation layer of `fake-gcs-server`
(`fakestorage/grpc_server.go`): the `ListBuckets`, `ListObjects` and
`WriteObject` handlers of `StorageServer`, together with the small Go
library routines they call (`fmt.Sprint` on a `uint32`,
`strconv.ParseUint(s, 10, 32)`, `fmt.Sprintf("%q", s)`).

The storage backend (`internal/backend`) is an external collaborator: the
handlers receive it as an abstract function.  Repository code that the
handlers call but that is not part of the given sources
(`internal/checksum.EncodedMd5Hash`, `getObjectACL`, `fromBackendObjects`)
is modelled from the specification; each such definition says so in its
doc comment.
-/

namespace FakeGcs

/-- Go `error` values, modelled by their message strings; `nil` errors are
represented by the `Except`/`Option` structure of the callers. -/
abbrev GoError := String

/-- `errUnsupportedWriteOperation` from grpc_server.go:
`errors.New("unsupported write operation")`. -/
def errUnsupportedWriteOperation : GoError := "unsupported write operation"

/-! ## Decimal formatting and parsing

`WriteObject` stores the frame checksum with `fmt.Sprint(*data.Crc32C)`
(decimal rendering of a `uint32`) and reads it back with
`strconv.ParseUint(created.Crc32c, 10, 32)`. -/

/-- Fuel-indexed decimal rendering of a natural number, most significant
digit first; the fuel only serves termination and any `fuel > n` is enough. -/
def toDecAux : Nat → Nat → List Char
  | 0, _ => []
  | fuel + 1, n =>
    if n < 10 then [Nat.digitChar n]
    else toDecAux fuel (n / 10) ++ [Nat.digitChar (n % 10)]

/-- Embeds Go `fmt.Sprint(x)` for a `uint32` value `x`: the decimal
rendering with no sign and no leading zeros. -/
def goSprintUint (n : Nat) : String := String.mk (toDecAux (n + 1) n)

/-- Embeds `fmt.Sprintf("%q", s)` for the strings this program quotes
(base64 digests and decimal numerals, which contain no character `%q`
escapes): the argument wrapped in double quotes. -/
def goQuote (s : String) : String := "\"" ++ s ++ "\""

/-- The digit test and value of `strconv`'s base-10 parser: a character
between `'0'` and `'9'` and its value, anything else rejected. -/
def decDigitVal (c : Char) : Option Nat :=
  if 48 ≤ c.toNat ∧ c.toNat ≤ 57 then some (c.toNat - 48) else none

/-- Horner accumulation of `strconv`'s base-10 parse over the characters. -/
def parseDecAux : Nat → List Char → Option Nat
  | acc, [] => some acc
  | acc, c :: cs =>
    match decDigitVal c with
    | some d => parseDecAux (acc * 10 + d) cs
    | none => none

/-- Embeds `strconv.ParseUint(s, 10, 32)`: an empty string or a non-digit
character is a syntax error, a value above `2^32 - 1` a range error;
otherwise the parsed value. -/
def goParseUint32 (s : String) : Except GoError Nat :=
  match s.data with
  | [] => .error ("strconv.ParseUint: parsing " ++ goQuote s ++ ": invalid syntax")
  | c :: cs =>
    match parseDecAux 0 (c :: cs) with
    | none => .error ("strconv.ParseUint: parsing " ++ goQuote s ++ ": invalid syntax")
    | some v =>
      if v < 2 ^ 32 then .ok v
      else .error ("strconv.ParseUint: parsing " ++ goQuote s ++ ": value out of range")

theorem parseDecAux_append (a : Nat) (xs ys : List Char) :
    parseDecAux a (xs ++ ys) = (parseDecAux a xs).bind fun b => parseDecAux b ys := by
  induction xs generalizing a with
  | nil => simp [parseDecAux]
  | cons c cs ih =>
    simp only [List.cons_append, parseDecAux]
    cases decDigitVal c with
    | none => simp
    | some d => simp [ih]

theorem decDigitVal_digitChar {d : Nat} (h : d < 10) :
    decDigitVal (Nat.digitChar d) = some d := by
  interval_cases d <;> decide

theorem parseDecAux_toDecAux (fuel : Nat) :
    ∀ n a, n < fuel →
      parseDecAux a (toDecAux fuel n) = some (a * 10 ^ (toDecAux fuel n).length + n) := by
  induction fuel with
  | zero => omega
  | succ fuel ih =>
    intro n a h
    by_cases h10 : n < 10
    · simp [toDecAux, h10, parseDecAux, decDigitVal_digitChar h10]
    · have hdiv : n / 10 < fuel := by
        have := Nat.div_lt_self (by omega : 0 < n) (by omega : 1 < 10)
        omega
      rw [toDecAux, if_neg h10, parseDecAux_append, ih (n / 10) a hdiv]
      rw [Option.some_bind]
      simp only [parseDecAux, decDigitVal_digitChar (Nat.mod_lt n (by omega))]
      have hmod := Nat.div_add_mod n 10
      simp only [List.length_append, List.length_singleton, pow_succ]
      congr 1
      ring_nf
      omega

theorem toDecAux_ne_nil (fuel n : Nat) (h : n < fuel) : toDecAux fuel n ≠ [] := by
  cases fuel with
  | zero => omega
  | succ fuel =>
    rw [toDecAux]
    by_cases h10 : n < 10
    · simp [h10]
    · simp [h10]

/-- Round trip at the top level: parsing the decimal rendering of any value
below `2^32` gives the value back. -/
theorem goParseUint32_goSprintUint (x : Nat) (h : x < 2 ^ 32) :
    goParseUint32 (goSprintUint x) = Except.ok x := by
  have hne := toDecAux_ne_nil (x + 1) x (Nat.lt_succ_self x)
  have hp := parseDecAux_toDecAux (x + 1) x 0 (Nat.lt_succ_self x)
  rw [Nat.zero_mul, Nat.zero_add] at hp
  unfold goParseUint32 goSprintUint
  cases hd : toDecAux (x + 1) x with
  | nil => exact absurd hd hne
  | cons c cs =>
    rw [hd] at hp
    simp only [String.data]
    rw [hp]
    simp only []
    rw [if_pos h]

/-! ## Protobuf request shapes (the fields grpc_server.go reads) -/

/-- `pb.ChecksummedData`: one chunk of payload bytes and an optional
unsigned 32-bit cyclic-redundancy value. -/
structure ChecksummedData where
  content : List Nat
  crc32c : Option Nat
deriving DecidableEq

/-- The resource record inside `pb.WriteObjectSpec`: the fields the handler
reads. -/
structure WriteObjectResource where
  bucket : String
  name : String
  contentType : String
  contentEncoding : String
deriving DecidableEq

/-- `pb.WriteObjectSpec`: the declared intent of the upload. -/
structure WriteObjectSpec where
  resource : WriteObjectResource
  predefinedAcl : String
deriving DecidableEq

/-- `pb.WriteObjectRequest`: one message of the client stream.  Both
payload and spec are protobuf oneof members, hence optional. -/
structure WriteObjectRequest where
  writeObjectSpec : Option WriteObjectSpec
  checksummedData : Option ChecksummedData
deriving DecidableEq

/-- The generated nil-safe getter `req.GetChecksummedData()`: on a nil
request pointer (the result of a failed `Recv`) it yields nil. -/
def getChecksummedData : Option WriteObjectRequest → Option ChecksummedData
  | none => none
  | some r => r.checksummedData

/-- The generated nil-safe getter `req.GetWriteObjectSpec()`. -/
def getWriteObjectSpec : Option WriteObjectRequest → Option WriteObjectSpec
  | none => none
  | some r => r.writeObjectSpec

/-! ## Backend records -/

/-- A project team inside an access-control entry. -/
structure ProjectTeam where
  projectNumber : String
  team : String
deriving DecidableEq

/-- One access-control entry of a backend object. -/
structure ACLRule where
  role : String
  entityID : String
  entity : String
  email : String
  domain : String
  projectTeam : Option ProjectTeam
deriving DecidableEq

/-- `backend.ObjectAttrs`: the metadata of a backend object.  The record
type lives in `internal/backend`, outside the given sources; its field list
is modelled from the spec's CommittedObject (bucket and object name,
content type and encoding, content hash, entity tag, auxiliary checksum,
access-control list, generation number, metadata, timestamps).
`storedSize` is modelled from the spec's sentence that the wire size is
always recomputed "even if a stored size field disagrees". -/
structure ObjectAttrs where
  bucketName : String
  name : String
  contentType : String
  contentEncoding : String
  md5Hash : String
  etag : String
  crc32c : String
  acl : List ACLRule
  generation : Int
  metadata : List (String × String)
  created : Int
  updated : Int
  deleted : Int
  storedSize : Int
deriving DecidableEq

/-- `backend.Object`: the attributes plus the content bytes. -/
structure Object extends ObjectAttrs where
  content : List Nat
deriving DecidableEq

/-- Modelled from the spec: `internal/checksum.EncodedMd5Hash` is outside
the given sources.  The spec's Checksum Codec computes a stable,
content-addressed textual digest of the raw bytes (the base64 rendering of
an MD5 hash), deterministic for identical input, with no side effects.
Modelled as a deterministic textual digest of the byte sequence whose
output stays inside the base64 alphabet. -/
def EncodedMd5Hash (bs : List Nat) : String :=
  "MD5x" ++ goSprintUint (bs.foldl (fun a b => (a * 257 + b + 1) % (2 ^ 128)) 7)

/-- Modelled from the spec: `getObjectACL` (fakestorage package, outside
the given sources) expands the spec's predefined-ACL preset through the
backend's preset-resolution rule, an external-collaborator concern.
Modelled as a deterministic expansion of the preset name into one entry. -/
def getObjectACL (predefinedAcl : String) : List ACLRule :=
  [⟨"OWNER", "", predefinedAcl, "", "", none⟩]

/-- Modelled from the spec: `fromBackendObjects` (fakestorage/object.go,
outside the given sources) maps a backend-native record onto the public
record type; the spec's Metadata Translator copies every field.  Modelled
as the identity copy.  The source calls it on a one-element slice and takes
element 0, which is this function applied to that element. -/
def fromBackendObject (o : Object) : Object := o

/-! ## Protobuf response shapes -/

/-- `pb.ObjectChecksums` of the write response. -/
structure PbObjectChecksums where
  crc32c : Option Nat
  md5Hash : String
deriving DecidableEq

/-- `pb.ObjectAccessControl` of the write response. -/
structure PbObjectAccessControl where
  role : String
  id : String
  entity : String
  email : String
  domain : String
  projectTeam : Option ProjectTeam
deriving DecidableEq

/-- `pb.Object` on the wire.  Times are opaque instants (`timestamppb.New`
is the identity on them in this embedding). -/
structure PbObject where
  name : String
  bucket : String
  size : Int
  generation : Int
  contentType : String
  contentEncoding : String
  createTime : Int
  deleteTime : Int
  updateTime : Int
  metadata : List (String × String)
  checksums : Option PbObjectChecksums
  acl : List PbObjectAccessControl
deriving DecidableEq

/-- The protobuf zero value of `pb.Object`: what `&pb.Object{Name: n}`
leaves in every other field. -/
def pbObjectZero : PbObject :=
  ⟨"", "", 0, 0, "", "", 0, 0, 0, [], none, []⟩

/-- `pb.Bucket` as the listing handler builds it: name only. -/
structure PbBucket where
  name : String
deriving DecidableEq

/-- `pb.ListBucketsResponse`; the slice field is `Option` so that a nil
slice and a present empty slice stay distinguishable. -/
structure ListBucketsResponse where
  buckets : Option (List PbBucket)
deriving DecidableEq

/-- `pb.ListObjectsResponse`; same nil/empty distinction. -/
structure ListObjectsResponse where
  objects : Option (List PbObject)
deriving DecidableEq

/-- `pb.WriteObjectResponse`: the single terminal resource message. -/
structure WriteObjectResponse where
  resource : PbObject
deriving DecidableEq

/-- `backend.Bucket` as the listing handler reads it. -/
structure Bucket where
  name : String
  versioningEnabled : Bool
  timeCreated : Int
deriving DecidableEq

/-! ## The handlers -/

/-- The `ListBuckets` handler.  The backend is an external collaborator, so
the handler takes the result of `s.backend.ListBuckets()` as its input: an
error is returned as the call's error, otherwise every bucket is projected
to its name and the slice is allocated with `make` (present, never nil). -/
def listBuckets (backendResult : Except GoError (List Bucket)) :
    Except GoError ListBucketsResponse :=
  match backendResult with
  | .error err => .error err
  | .ok buckets => .ok ⟨some (buckets.map fun b => ⟨b.name⟩)⟩

/-- `pb.ListObjectsRequest`: the three fields the handler reads.  `pfx`
embeds the request's prefix-filter field. -/
structure ListObjectsRequest where
  parent : String
  pfx : String
  versions : Bool
deriving DecidableEq

/-- The `ListObjects` handler, instrumented: alongside the call's result it
returns the argument triples passed to the backend's object enumeration,
in call order. -/
def listObjects
    (backendListObjects : String → String → Bool → Except GoError (List ObjectAttrs))
    (req : ListObjectsRequest) :
    Except GoError ListObjectsResponse × List (String × String × Bool) :=
  (match backendListObjects req.parent req.pfx req.versions with
   | .error err => .error err
   | .ok objects => .ok ⟨some (objects.map fun o => { pbObjectZero with name := o.name })⟩,
   [(req.parent, req.pfx, req.versions)])

/-- The client stream of `WriteObject` as the handler can observe it: the
messages in arrival order, plus an optional connection error pending on the
first `Recv` (end of stream before any message surfaces as the EOF receive
error). -/
structure UploadStream where
  connError : Option GoError
  frames : List WriteObjectRequest
deriving DecidableEq

/-- The first `writeServer.Recv()`: the pending connection error if any,
the EOF error on an empty stream, otherwise the first message. -/
def recvFirst (s : UploadStream) : Except GoError WriteObjectRequest :=
  match s.connError with
  | some e => .error e
  | none =>
    match s.frames with
    | [] => .error "EOF"
    | m :: _ => .ok m

deriving instance DecidableEq for Except

/-- Outcome of one `WriteObject` call: the handler's return value (the
response passed to `SendAndClose`, or the error) together with the
arguments handed to the backend's `CreateObject`, in call order — the
explicit trace of backend writes. -/
structure WriteOutcome where
  result : Except GoError WriteObjectResponse
  createObjectCalls : List Object
deriving DecidableEq

/-- The access-control projection loop of the write response. -/
def toPbAccessControl (a : ACLRule) : PbObjectAccessControl :=
  { role := a.role, id := a.entityID, entity := a.entity, email := a.email,
    domain := a.domain, projectTeam := a.projectTeam }

/-- The resource of the write response, field for field as the handler
builds it; the size is recomputed from the content bytes. -/
def buildResource (created : Object) (crc32c : Nat) : PbObject :=
  { name := created.name
    bucket := created.bucketName
    size := Int.ofNat created.content.length
    generation := created.generation
    contentType := created.contentType
    contentEncoding := created.contentEncoding
    createTime := created.created
    deleteTime := created.deleted
    updateTime := created.updated
    metadata := created.metadata
    checksums := some ⟨some crc32c, created.md5Hash⟩
    acl := created.acl.map toPbAccessControl }

/-- `req, err := writeServer.Recv()` with `err` unread: a failed receive
leaves `req` nil, which is all the handler looks at. -/
def recvdRequest (s : UploadStream) : Option WriteObjectRequest :=
  match recvFirst s with
  | .ok m => some m
  | .error _ => none

/-- The backend write request `reqObj` exactly as the handler assembles it
from the first message's payload and spec: digest and entity tag from the
payload bytes, names and content metadata from the spec's resource, the
access-control list from the predefined-ACL preset, the optional checksum
rendered in decimal (the string zero value when absent), and the Go zero
value in every field the source leaves unset. -/
def buildWriteRequest (data : ChecksummedData) (spec : WriteObjectSpec) : Object :=
  { bucketName := spec.resource.bucket
    name := spec.resource.name
    contentType := spec.resource.contentType
    contentEncoding := spec.resource.contentEncoding
    md5Hash := EncodedMd5Hash data.content
    etag := goQuote (EncodedMd5Hash data.content)
    crc32c :=
      match data.crc32c with
      | some v => goSprintUint v
      | none => ""
    acl := getObjectACL spec.predefinedAcl
    generation := 0
    metadata := []
    created := 0
    updated := 0
    deleted := 0
    storedSize := 0
    content := data.content }

/-- The tail of the handler from the `s.backend.CreateObject(reqObj)` call
on: backend errors and checksum parse errors are returned as they are,
otherwise the committed object is translated and sent as the single
terminal response. -/
def commitAndRespond (createObject : Object → Except GoError Object) (reqObj : Object) :
    WriteOutcome :=
  match createObject reqObj with
  | .error err => ⟨.error err, [reqObj]⟩
  | .ok backendObj =>
    match goParseUint32 (fromBackendObject backendObj).crc32c with
    | .error err => ⟨.error err, [reqObj]⟩
    | .ok maybeCrc32c =>
      ⟨.ok ⟨buildResource (fromBackendObject backendObj) maybeCrc32c⟩, [reqObj]⟩

/-- The `WriteObject` handler, line for line: one `Recv` whose error is
discarded, nil checks on the two oneof getters (either failing with the
sentinel before the backend is touched), then the assembled write request
is committed and the response built. -/
def writeObject (createObject : Object → Except GoError Object) (s : UploadStream) :
    WriteOutcome :=
  let req : Option WriteObjectRequest := recvdRequest s
  match getChecksummedData req with
  | none => ⟨.error errUnsupportedWriteOperation, []⟩
  | some data =>
    match getWriteObjectSpec req with
    | none => ⟨.error errUnsupportedWriteOperation, []⟩
    | some spec => commitAndRespond createObject (buildWriteRequest data spec)

/-- The payload bytes one stream message carries. -/
def framePayload (m : WriteObjectRequest) : List Nat :=
  match m.checksummedData with
  | some d => d.content
  | none => []

/-- The concatenation, in arrival order, of the payload bytes of every
frame sent on a stream. -/
def allFramesPayload (s : UploadStream) : List Nat :=
  (s.frames.map framePayload).flatten

/-! ## General lemmas about the handlers -/

theorem writeObject_valid_first (cb : Object → Except GoError Object)
    (m : WriteObjectRequest) (rest : List WriteObjectRequest)
    (d : ChecksummedData) (sp : WriteObjectSpec)
    (hd : m.checksummedData = some d) (hs : m.writeObjectSpec = some sp) :
    writeObject cb ⟨none, m :: rest⟩ = commitAndRespond cb (buildWriteRequest d sp) := by
  simp [writeObject, recvdRequest, recvFirst, getChecksummedData, getWriteObjectSpec, hd, hs]

theorem commitAndRespond_calls (cb : Object → Except GoError Object) (r : Object) :
    (commitAndRespond cb r).createObjectCalls = [r] := by
  unfold commitAndRespond
  cases hcb : cb r with
  | error err => rfl
  | ok backendObj =>
    cases hv : goParseUint32 (fromBackendObject backendObj).crc32c with
    | error err => simp [hv]
    | ok v => simp [hv]

theorem commitAndRespond_ok (cb : Object → Except GoError Object) (r o : Object) (v : Nat)
    (hcb : cb r = Except.ok o)
    (hv : goParseUint32 (fromBackendObject o).crc32c = Except.ok v) :
    (commitAndRespond cb r).result =
      Except.ok ⟨buildResource (fromBackendObject o) v⟩ := by
  unfold commitAndRespond
  rw [hcb]
  simp [hv]

theorem commitAndRespond_backend_error (cb : Object → Except GoError Object) (r : Object)
    (e : GoError) (hcb : cb r = Except.error e) :
    (commitAndRespond cb r).result = Except.error e := by
  unfold commitAndRespond
  rw [hcb]

/-! ## Concrete inputs used by witnesses and counterexamples -/

/-- A concrete upload spec: bucket `b`, object `o`. -/
def exSpec : WriteObjectSpec := ⟨⟨"b", "o", "", ""⟩, ""⟩

/-- A backend that accepts every write and stores it as sent. -/
def okBackend : Object → Except GoError Object := fun o => Except.ok o

/-- A backend that accepts every write and echoes it with the auxiliary
checksum field set to the decimal numeral `7`. -/
def echoBackend7 : Object → Except GoError Object :=
  fun o => Except.ok { o with crc32c := "7" }

/-! ## Claim C1 -/

/-- Claim C1, as stated, fails at this input: the first stream message
carries a present but empty data payload together with a spec, so it lacks
a non-empty data payload; the claim demands the sentinel error with the
backend untouched, but the handler checks only that the payload field is
present: it commits the empty object, so the backend's `CreateObject` is
invoked and the call does not return the sentinel. -/
theorem C1_counterexample :
    (writeObject okBackend ⟨none, [⟨some exSpec, some ⟨[], none⟩⟩]⟩).createObjectCalls ≠ [] ∧
    (writeObject okBackend ⟨none, [⟨some exSpec, some ⟨[], none⟩⟩]⟩).result ≠
      Except.error errUnsupportedWriteOperation := by
  decide

/-- Claim C1 (amended): for every upload stream whose first received
message lacks a data payload (the checksummed-data field is absent) or
lacks an UploadSpec, `WriteObject` returns the fixed "unsupported write
operation" sentinel error and the backend's `CreateObject` is never
invoked (the trace of backend writes is empty).  Unlike the claim, the
code accepts a present-but-empty payload. -/
theorem C1_missing_payload_or_spec_rejected (cb : Object → Except GoError Object)
    (m : WriteObjectRequest) (rest : List WriteObjectRequest)
    (h : m.checksummedData = none ∨ m.writeObjectSpec = none) :
    writeObject cb ⟨none, m :: rest⟩ =
      ⟨Except.error errUnsupportedWriteOperation, []⟩ := by
  rcases h with h | h
  · simp [writeObject, recvdRequest, recvFirst, getChecksummedData, h]
  · cases hd : m.checksummedData with
    | none => simp [writeObject, recvdRequest, recvFirst, getChecksummedData, hd]
    | some d =>
      simp [writeObject, recvdRequest, recvFirst, getChecksummedData,
        getWriteObjectSpec, hd, h]

/-- Witness for the amended C1: a first message with a spec but no payload
field is rejected with the sentinel and no backend call. -/
theorem C1_witness :
    (WriteObjectRequest.mk (some exSpec) none).checksummedData = none ∧
    writeObject okBackend ⟨none, [WriteObjectRequest.mk (some exSpec) none]⟩ =
      ⟨Except.error errUnsupportedWriteOperation, []⟩ :=
  ⟨rfl, C1_missing_payload_or_spec_rejected okBackend _ [] (Or.inl rfl)⟩

/-! ## Claim C10 -/

/-- Claim C10: if the first receive on the upload stream fails (connection
error, or end of stream before any message), `WriteObject` returns the
fixed "unsupported write operation" sentinel and never calls the backend;
the receive error itself is discarded and never surfaced — the outcome is
the same whatever the receive error was. -/
theorem C10_recv_error_discarded (cb : Object → Except GoError Object)
    (s : UploadStream) (e : GoError) (h : recvFirst s = Except.error e) :
    writeObject cb s = ⟨Except.error errUnsupportedWriteOperation, []⟩ := by
  simp [writeObject, recvdRequest, h, getChecksummedData]

/-- Witness for C10 at a concrete connection error. -/
theorem C10_witness :
    recvFirst ⟨some "connection reset by peer", []⟩ =
      Except.error "connection reset by peer" ∧
    writeObject okBackend ⟨some "connection reset by peer", []⟩ =
      ⟨Except.error errUnsupportedWriteOperation, []⟩ :=
  ⟨rfl, C10_recv_error_discarded okBackend _ _ rfl⟩

/-! ## Claim C3 -/

/-- A two-frame stream: first frame with spec and payload bytes 104, 101,
second frame with payload bytes 108, 108, 111. -/
def exMsg1 : WriteObjectRequest := ⟨some exSpec, some ⟨[104, 101], none⟩⟩

/-- The second frame of the two-frame stream. -/
def exMsg2 : WriteObjectRequest := ⟨none, some ⟨[108, 108, 111], none⟩⟩

/-- The two-frame stream itself. -/
def exTwoFrameStream : UploadStream := ⟨none, [exMsg1, exMsg2]⟩

/-- Claim C3, as stated, fails at this input: on a two-frame stream the
handler never reads past the first message, so the content committed to
the backend is the first frame's bytes 104, 101 and not the concatenation
of all frames' payloads 104, 101, 108, 108, 111. -/
theorem C3_counterexample :
    (writeObject okBackend exTwoFrameStream).createObjectCalls.map Object.content =
      [[104, 101]] ∧
    allFramesPayload exTwoFrameStream = [104, 101, 108, 108, 111] ∧
    (writeObject okBackend exTwoFrameStream).createObjectCalls.map Object.content ≠
      [allFramesPayload exTwoFrameStream] := by
  decide

/-- Claim C3 (amended): for every upload stream whose first message carries
a payload and a spec, the content committed to the backend via
`CreateObject` is exactly the payload bytes of the first frame; frames
after the first are never read. -/
theorem C3_commits_first_frame_payload (cb : Object → Except GoError Object)
    (m : WriteObjectRequest) (rest : List WriteObjectRequest)
    (d : ChecksummedData) (sp : WriteObjectSpec)
    (hd : m.checksummedData = some d) (hs : m.writeObjectSpec = some sp) :
    (writeObject cb ⟨none, m :: rest⟩).createObjectCalls.map Object.content =
      [d.content] := by
  rw [writeObject_valid_first cb m rest d sp hd hs, commitAndRespond_calls]
  rfl

/-- Witness for the amended C3 on the two-frame stream. -/
theorem C3_witness :
    (writeObject okBackend exTwoFrameStream).createObjectCalls.map Object.content =
      [[104, 101]] :=
  C3_commits_first_frame_payload okBackend exMsg1 [exMsg2] ⟨[104, 101], none⟩ exSpec
    rfl rfl

/-! ## Claim C2 -/

/-- Claim C2: for every upload stream whose first message carries a payload
and a spec but no optional 32-bit checksum, `WriteObject` still proceeds:
the auxiliary checksum field of the backend write request is the omitted
(empty) value, the backend is invoked with exactly that request, and when
the backend commits the object and returns a record whose auxiliary
checksum parses, the call returns the translated response — the absent
checksum never makes the operation fail. -/
theorem C2_checksum_optional (cb : Object → Except GoError Object)
    (m : WriteObjectRequest) (rest : List WriteObjectRequest)
    (d : ChecksummedData) (sp : WriteObjectSpec)
    (hd : m.checksummedData = some d) (hs : m.writeObjectSpec = some sp)
    (hc : d.crc32c = none) :
    (buildWriteRequest d sp).crc32c = "" ∧
    (writeObject cb ⟨none, m :: rest⟩).createObjectCalls = [buildWriteRequest d sp] ∧
    (∀ o v, cb (buildWriteRequest d sp) = Except.ok o →
      goParseUint32 (fromBackendObject o).crc32c = Except.ok v →
      (writeObject cb ⟨none, m :: rest⟩).result =
        Except.ok ⟨buildResource (fromBackendObject o) v⟩) := by
  refine ⟨?_, ?_, ?_⟩
  · simp [buildWriteRequest, hc]
  · rw [writeObject_valid_first cb m rest d sp hd hs, commitAndRespond_calls]
  · intro o v hcb hv
    rw [writeObject_valid_first cb m rest d sp hd hs]
    exact commitAndRespond_ok cb _ o v hcb hv

/-- A first message with payload byte 104 and no checksum. -/
def exMsgNoCrc : WriteObjectRequest := ⟨some exSpec, some ⟨[104], none⟩⟩

/-- Witness for C2: with a backend that commits and echoes the request with
a parseable checksum, the upload without a frame checksum succeeds and the
request's auxiliary checksum field is empty. -/
theorem C2_witness :
    (buildWriteRequest ⟨[104], none⟩ exSpec).crc32c = "" ∧
    (writeObject echoBackend7 ⟨none, [exMsgNoCrc]⟩).createObjectCalls =
      [buildWriteRequest ⟨[104], none⟩ exSpec] ∧
    (writeObject echoBackend7 ⟨none, [exMsgNoCrc]⟩).result =
      Except.ok ⟨buildResource
        (fromBackendObject { buildWriteRequest ⟨[104], none⟩ exSpec with crc32c := "7" }) 7⟩ := by
  obtain ⟨h1, h2, h3⟩ :=
    C2_checksum_optional echoBackend7 exMsgNoCrc [] ⟨[104], none⟩ exSpec rfl rfl rfl
  exact ⟨h1, h2, h3 _ 7 rfl (by decide)⟩

/-! ## Claim C4 -/

/-- Claim C4: for every unsigned 32-bit integer X (including 0 and
4294967295), rendering X to its decimal string with the encoding used when
attaching the frame checksum to the write request (`fmt.Sprint`) and
parsing that string back with the parsing used when building the wire
response (`strconv.ParseUint(s, 10, 32)`) yields X again. -/
theorem C4_checksum_decimal_roundtrip (x : Nat) (h : x < 2 ^ 32) :
    goParseUint32 (goSprintUint x) = Except.ok x :=
  goParseUint32_goSprintUint x h

/-- Witness for C4 at both boundary values 0 and 4294967295. -/
theorem C4_witness :
    (0 < 2 ^ 32 ∧ goParseUint32 (goSprintUint 0) = Except.ok 0) ∧
    (4294967295 < 2 ^ 32 ∧
      goParseUint32 (goSprintUint 4294967295) = Except.ok 4294967295) :=
  ⟨⟨by decide, C4_checksum_decimal_roundtrip 0 (by decide)⟩,
   ⟨by decide, C4_checksum_decimal_roundtrip 4294967295 (by decide)⟩⟩

/-! ## Claim C5 -/

/-- Claim C5: for every valid upload (first message with payload and spec),
the write request handed to the backend's `CreateObject` carries as its
content hash the digest of the payload content and as its entity tag that
same hash wrapped in double quotes; the entity tag is never assigned
independently of the hash.  (The digest itself, base64 of MD5, lives in
`internal/checksum` outside the given sources and is modelled from the
spec as `EncodedMd5Hash`.) -/
theorem C5_hash_and_etag (cb : Object → Except GoError Object)
    (m : WriteObjectRequest) (rest : List WriteObjectRequest)
    (d : ChecksummedData) (sp : WriteObjectSpec)
    (hd : m.checksummedData = some d) (hs : m.writeObjectSpec = some sp) :
    (writeObject cb ⟨none, m :: rest⟩).createObjectCalls.map
        (fun r => (r.md5Hash, r.etag)) =
      [(EncodedMd5Hash d.content, goQuote (EncodedMd5Hash d.content))] ∧
    goQuote (EncodedMd5Hash d.content) = "\"" ++ EncodedMd5Hash d.content ++ "\"" := by
  constructor
  · rw [writeObject_valid_first cb m rest d sp hd hs, commitAndRespond_calls]
    rfl
  · rfl

/-- A first message carrying the payload bytes of "hello" and the spec with
bucket `b`, object `o`. -/
def exMsgHello : WriteObjectRequest := ⟨some exSpec, some ⟨[104, 101, 108, 108, 111], none⟩⟩

/-- Witness for C5 on the upload of "hello" to bucket `b`, object `o`. -/
theorem C5_witness :
    (writeObject okBackend ⟨none, [exMsgHello]⟩).createObjectCalls.map
        (fun r => (r.md5Hash, r.etag)) =
      [(EncodedMd5Hash [104, 101, 108, 108, 111],
        goQuote (EncodedMd5Hash [104, 101, 108, 108, 111]))] :=
  (C5_hash_and_etag okBackend exMsgHello [] ⟨[104, 101, 108, 108, 111], none⟩ exSpec
    rfl rfl).1

/-! ## Claim C6 -/

/-- Claim C6: for every committed object the backend returns, the size
field of the wire response resource is the byte length of the committed
content, recomputed from the content itself; it does not read any stored
size field, so it is unchanged under any value of the stored size. -/
theorem C6_size_recomputed (cb : Object → Except GoError Object)
    (r o : Object) (v : Nat) (hcb : cb r = Except.ok o)
    (hv : goParseUint32 (fromBackendObject o).crc32c = Except.ok v) :
    (commitAndRespond cb r).result =
      Except.ok ⟨buildResource (fromBackendObject o) v⟩ ∧
    (buildResource (fromBackendObject o) v).size =
      Int.ofNat (fromBackendObject o).content.length ∧
    ∀ sz : Int, (buildResource (fromBackendObject { o with storedSize := sz }) v).size =
      Int.ofNat (fromBackendObject o).content.length :=
  ⟨commitAndRespond_ok cb r o v hcb hv, rfl, fun _ => rfl⟩

/-- A committed object whose stored size field (999) disagrees with its
one-byte content. -/
def exDisagreeingObject : Object :=
  { bucketName := "b", name := "o", contentType := "", contentEncoding := "",
    md5Hash := "m", etag := "\"m\"", crc32c := "7", acl := [], generation := 3,
    metadata := [], created := 0, updated := 0, deleted := 0, storedSize := 999,
    content := [104] }

/-- A backend that commits every request as the disagreeing object. -/
def disagreeBackend : Object → Except GoError Object :=
  fun _ => Except.ok exDisagreeingObject

/-- Witness for C6: the response size is the content length 1 even though
the stored size field says 999. -/
theorem C6_witness :
    (commitAndRespond disagreeBackend (buildWriteRequest ⟨[104], none⟩ exSpec)).result =
      Except.ok ⟨buildResource (fromBackendObject exDisagreeingObject) 7⟩ ∧
    (buildResource (fromBackendObject exDisagreeingObject) 7).size = Int.ofNat 1 ∧
    exDisagreeingObject.storedSize = 999 := by
  obtain ⟨h1, h2, _⟩ :=
    C6_size_recomputed disagreeBackend (buildWriteRequest ⟨[104], none⟩ exSpec)
      exDisagreeingObject 7 rfl (by decide)
  exact ⟨h1, h2, rfl⟩

/-! ## Claim C7 -/

/-- Claim C7: every error value the backend returns from `ListBuckets`,
`ListObjects` or `CreateObject` is returned by the corresponding handler
to the caller as that exact error value — no retry, masking or remapping. -/
theorem C7_backend_errors_propagate (e : GoError)
    (blo : String → String → Bool → Except GoError (List ObjectAttrs))
    (req : ListObjectsRequest)
    (hblo : blo req.parent req.pfx req.versions = Except.error e)
    (cb : Object → Except GoError Object)
    (m : WriteObjectRequest) (rest : List WriteObjectRequest)
    (d : ChecksummedData) (sp : WriteObjectSpec)
    (hd : m.checksummedData = some d) (hs : m.writeObjectSpec = some sp)
    (hcb : cb (buildWriteRequest d sp) = Except.error e) :
    listBuckets (Except.error e) = Except.error e ∧
    (listObjects blo req).1 = Except.error e ∧
    (writeObject cb ⟨none, m :: rest⟩).result = Except.error e := by
  refine ⟨rfl, ?_, ?_⟩
  · simp [listObjects, hblo]
  · rw [writeObject_valid_first cb m rest d sp hd hs]
    exact commitAndRespond_backend_error cb _ e hcb

/-- A backend whose object enumeration always fails. -/
def errBackendList : String → String → Bool → Except GoError (List ObjectAttrs) :=
  fun _ _ _ => Except.error "bucket not found"

/-- A backend whose object creation always fails. -/
def errBackendObj : Object → Except GoError Object :=
  fun _ => Except.error "bucket not found"

/-- Witness for C7 with the concrete backend error "bucket not found". -/
theorem C7_witness :
    listBuckets (Except.error "bucket not found") = Except.error "bucket not found" ∧
    (listObjects errBackendList ⟨"b", "img/", false⟩).1 =
      Except.error "bucket not found" ∧
    (writeObject errBackendObj ⟨none, [exMsgHello]⟩).result =
      Except.error "bucket not found" :=
  C7_backend_errors_propagate "bucket not found" errBackendList ⟨"b", "img/", false⟩
    rfl errBackendObj exMsgHello [] ⟨[104, 101, 108, 108, 111], none⟩ exSpec
    rfl rfl rfl

/-! ## Claim C8 -/

/-- Claim C8: every `ListObjects` request passes its three fields — parent,
prefix filter and versions flag — unchanged to the backend's object
enumeration (the call trace is exactly that one triple), and on success
the response is exactly the backend's result list, in the backend's order
and with the same length, each entry projected to only its name field (the
protobuf zero value everywhere else). -/
theorem C8_listObjects_delegation
    (blo : String → String → Bool → Except GoError (List ObjectAttrs))
    (req : ListObjectsRequest) (objs : List ObjectAttrs)
    (h : blo req.parent req.pfx req.versions = Except.ok objs) :
    (listObjects blo req).2 = [(req.parent, req.pfx, req.versions)] ∧
    (listObjects blo req).1 =
      Except.ok ⟨some (objs.map fun o => { pbObjectZero with name := o.name })⟩ ∧
    (objs.map fun o => { pbObjectZero with name := o.name }).length = objs.length := by
  refine ⟨rfl, ?_, by simp⟩
  simp [listObjects, h]

/-- Two backend records with distinct names and nonzero other fields. -/
def exAttrsA : ObjectAttrs :=
  ⟨"b", "a.txt", "text/plain", "", "m1", "e1", "1", [], 1, [], 0, 0, 0, 5⟩

/-- The second backend record. -/
def exAttrsB : ObjectAttrs :=
  ⟨"b", "img/b.png", "image/png", "", "m2", "e2", "2", [], 2, [], 0, 0, 0, 6⟩

/-- A backend whose object enumeration returns the two records. -/
def exListBackend : String → String → Bool → Except GoError (List ObjectAttrs) :=
  fun _ _ _ => Except.ok [exAttrsA, exAttrsB]

/-- Witness for C8 at `parent = "b"`, prefix `"img/"`, `versions = false`. -/
theorem C8_witness :
    (listObjects exListBackend ⟨"b", "img/", false⟩).2 = [("b", "img/", false)] ∧
    (listObjects exListBackend ⟨"b", "img/", false⟩).1 =
      Except.ok ⟨some [{ pbObjectZero with name := "a.txt" },
        { pbObjectZero with name := "img/b.png" }]⟩ := by
  obtain ⟨h1, h2, _⟩ :=
    C8_listObjects_delegation exListBackend ⟨"b", "img/", false⟩ [exAttrsA, exAttrsB] rfl
  exact ⟨h1, h2⟩

/-! ## Claim C9 -/

/-- Claim C9: when the backend's bucket enumeration returns zero buckets
and no error, `ListBuckets` returns a response whose bucket sequence is
present and empty — `some []`, not the absent (nil) sequence. -/
theorem C9_empty_bucket_list :
    listBuckets (Except.ok []) = Except.ok ⟨some []⟩ := rfl

end FakeGcs
